import Mathlib

/-!
Shallow embedding of the `profile-extractor` pipeline (LangGraph-based faculty
profile scraper) and proofs about its specification claims.

Sources embedded:
  * `src/state.py`    — the `GraphState` record threaded through the pipeline.
  * `src/schemas.py`  — `DegreeInfo`, `ProfileData`, `ValidationStatus`,
                        `ValidationResult`.
  * `src/nodes.py`    — the pipeline steps `fetch_html`, `preprocess_content`,
                        `extract_data`, `validate_data`, `handle_error` and
                        `calculate_cost`.
  * `src/processing.py` — `process_url` and `run_processing_loop`.
  * `src/reporting.py`  — `calculate_metrics` (batch aggregation).
  * `main.py`           — the legacy copy of `calculate_metrics`.

Modelling conventions:
  * External collaborators (HTTP library, BeautifulSoup, the LLM calls, the
    JSON decoder, wall-clock time and the tokenizer fallback) are inputs to
    the step functions: an `HttpEvent`, a `SoupView`, an `LlmOutcome`, a
    `JudgeOutcome`, an elapsed-time rational and token counts.  Everything
    the repository's own code does with those inputs is embedded faithfully,
    including Python truthiness tests, dictionary updates and which exception
    classes each `except` clause catches.
  * Python `float`/`int` measurement values are modelled as `ℚ`; the
    aggregation code only adds, compares and (guardedly) divides them.
  * Python dictionaries keyed by strings are association lists with
    first-occurrence lookup; keys are never duplicated by the embedded code.
  * A Python exception escaping a function is an `Except` error value;
    functions that cannot raise are total.
  * Tracing/telemetry side channels (LangSmith feedback, `thread_id`
    metadata, debug-dump files, log output) carry no data back into the
    pipeline state and are omitted.
-/

namespace ProfileExtractor

/-- Python truthiness of an optional string (`None` and `""` are falsy). -/
def truthy : Option String → Bool
  | none => false
  | some s => !(s = "")

/-- Python `a or b` on optional strings (used for the sticky `error` field:
`state.get("error") or error_message`). -/
def pyOrStr (a b : Option String) : Option String :=
  if truthy a then a else b

/-- Structured diagnostic stored in `error_details`; the `traceback` entry and
library-generated exception text are not modelled (they are opaque strings the
pipeline never reads). -/
structure ErrorDetails where
  exception_type : Option String := none
  message : String := ""
  status_code : Option Nat := none
  deriving DecidableEq, Repr

/-- Python `a or b` on optional detail dicts (`None` falsy, the dicts built by
the code are always non-empty, hence truthy). -/
def pyOrDet (a b : Option ErrorDetails) : Option ErrorDetails :=
  if a.isSome then a else b

/-- Python `dict[k] = v`: replace the value at the first (only) occurrence of
the key, otherwise append the binding. -/
def dictSet : List (String × α) → String → α → List (String × α)
  | [], k, v => [(k, v)]
  | p :: rest, k, v => if p.1 = k then (k, v) :: rest else p :: dictSet rest k v

/-- Python `d.get(k, 0.0)` on a metrics dictionary. -/
def mget (m : List (String × ℚ)) (k : String) : ℚ :=
  (m.lookup k).getD 0

/-- `schemas.DegreeInfo`. -/
structure DegreeInfo where
  degree_type : Option String := none
  institution : Option String := none
  year : Option String := none
  deriving DecidableEq, Repr

/-- `schemas.ProfileData`. -/
structure ProfileData where
  source_url : String
  photo_url : Option String := none
  first_name : Option String := none
  middle_name : Option String := none
  last_name : Option String := none
  title : Option String := none
  office : Option String := none
  phone : Option String := none
  email : Option String := none
  college_unit : Option String := none
  department_division : Option String := none
  degrees : Option (List DegreeInfo) := none
  research_focus_areas : Option (List String) := none
  deriving DecidableEq, Repr

/-- `schemas.ValidationStatus`. -/
inductive ValidationStatus where
  | correct
  | incorrect
  | missing
  | notApplicable
  deriving DecidableEq, Repr

/-- The string value of each `ValidationStatus` member. -/
def ValidationStatus.text : ValidationStatus → String
  | .correct => "Correct"
  | .incorrect => "Incorrect"
  | .missing => "Missing"
  | .notApplicable => "Not Applicable"

/-- `schemas.ValidationResult`. -/
structure ValidationResult where
  photo_url_status : ValidationStatus
  first_name_status : ValidationStatus
  middle_name_status : ValidationStatus
  last_name_status : ValidationStatus
  title_status : ValidationStatus
  office_status : ValidationStatus
  phone_status : ValidationStatus
  email_status : ValidationStatus
  college_unit_status : ValidationStatus
  department_division_status : ValidationStatus
  degrees_status : ValidationStatus
  research_focus_areas_status : ValidationStatus
  overall_comment : Option String := none
  deriving DecidableEq, Repr

/-- The runtime value held in `GraphState.extracted_data`: either the
`{"photo_url": ...}` dict stored by `preprocess_content` or a parsed
`ProfileData` produced by `extract_data`.  Both are Python-truthy. -/
inductive ExtractedData where
  | photoDict (photo_url : String)
  | profile (p : ProfileData)
  deriving DecidableEq, Repr

/-- `state.GraphState`, the record threaded through the pipeline for one URL. -/
structure GraphState where
  url : String
  html_content : Option String := none
  preprocessed_content : Option String := none
  extracted_data : Option ExtractedData := none
  validation_result : Option ValidationResult := none
  metrics : List (String × ℚ) := []
  error : Option String := none
  error_details : Option ErrorDetails := none
  deriving DecidableEq, Repr

/-- The `initial_state` dict built by `processing.process_url`. -/
def initialState (url : String) : GraphState :=
  { url := url }

/-- `nodes.GEMINI_FLASH_PRICING` (price per token, input and output). -/
def GEMINI_FLASH_PRICING_input : ℚ := (35 : ℚ) / 100 / 1000000

/-- Output price per token from `nodes.GEMINI_FLASH_PRICING`. -/
def GEMINI_FLASH_PRICING_output : ℚ := (70 : ℚ) / 100 / 1000000

/-- `nodes.calculate_cost`. -/
def calculate_cost (input_tokens output_tokens : Nat) : ℚ :=
  input_tokens * GEMINI_FLASH_PRICING_input + output_tokens * GEMINI_FLASH_PRICING_output

/-! ## Fetcher (`nodes.fetch_html`)

The HTTP library is a black box delivering either a response (status plus
body) or one of the typed failures the code's `except` clauses distinguish.
`requests` follows redirects internally; the event carries the final
response.  `response.raise_for_status()` raises `requests.HTTPError` exactly
for status codes in `[400, 600)`. -/

/-- Outcome of the `requests.get` call observed by `fetch_html`. -/
inductive HttpEvent where
  | response (status : Nat) (body : String)
  | timeout (msg : String)
  | connError (msg : String)
  | unexpectedExc (msg : String)
  deriving DecidableEq, Repr

/-- `requests.Response.raise_for_status` raises iff `400 <= status < 600`. -/
def raise_for_status (status : Nat) : Bool :=
  400 ≤ status && status < 600

/-- `nodes.fetch_html`: politeness sleep and user-agent are outside the state;
the `finally` block records `fetch_time_ms` on every path, and the node
overwrites `html_content`, `error`, `error_details` unconditionally. -/
def fetch_html (ev : HttpEvent) (elapsed : ℚ) (state : GraphState) : GraphState :=
  let m := dictSet state.metrics "fetch_time_ms" elapsed
  match ev with
  | .response status body =>
    if raise_for_status status then
      { state with
        html_content := none
        metrics := m
        error := some "Failed to fetch URL"
        error_details := some { exception_type := some "HTTPError", status_code := some status } }
    else
      { state with
        html_content := some body
        metrics := m
        error := none
        error_details := none }
  | .timeout msg =>
    { state with
      html_content := none
      metrics := m
      error := some "Request timed out"
      error_details := some { exception_type := some "Timeout", message := msg } }
  | .connError msg =>
    { state with
      html_content := none
      metrics := m
      error := some "Failed to fetch URL"
      error_details := some { exception_type := some "ConnectionError", message := msg } }
  | .unexpectedExc msg =>
    { state with
      html_content := none
      metrics := m
      error := some "An unexpected error occurred during fetch"
      error_details := some { exception_type := some "Exception", message := msg } }

/-! ## Preprocessor (`nodes.preprocess_content`)

BeautifulSoup is a black box; a `SoupView` records what the node's queries
observe on the parsed tree after boilerplate removal: the text of the first
container matched by the selector list, whether a `<body>` exists (and its
text), and the result of the headshot lookup
(`soup.select_one(".profile-container-headshot")` then `find("img")`). -/

/-- An `<img>` tag as seen by the node: only its `src` attribute is read, via
`img_tag["src"]`, which raises `KeyError` when the attribute is absent. -/
structure ImgTag where
  src : Option String := none
  deriving DecidableEq, Repr

/-- Observations of the parsed HTML tree used by `preprocess_content`. -/
structure SoupView where
  selectorContainer : Option String := none
  hasBody : Bool := true
  bodyText : String := ""
  headshotImg : Option (Option ImgTag) := none
  deriving DecidableEq, Repr

/-- Container choice: first selector match, else `soup.body`, else nothing. -/
def SoupView.chosenText (v : SoupView) : Option String :=
  match v.selectorContainer with
  | some t => some t
  | none => if v.hasBody then some v.bodyText else none

/-- A Python exception escaping a function (type name plus `str(e)`). -/
structure PyExc where
  name : String
  msg : String := ""
  deriving DecidableEq, Repr

/-- `nodes.preprocess_content`.  Faithful control flow:
  * previous truthy `error` short-circuits, returning the state untouched;
  * falsy `html_content` (`None` or `""`) fails with a message-only detail
    dict and does not record `preprocess_time_ms`;
  * when neither selector list nor `<body>` yields a container, the raised
    `ValueError` is caught, but the handler path then evaluates
    `if photo_url:` before `photo_url = None` was ever executed, so an
    `UnboundLocalError` escapes the node;
  * `img_tag["src"]` on an `<img>` without `src` raises `KeyError`, caught by
    the blanket handler: the step fails and `preprocessed_content` stays
    `None`;
  * on success the photo dict is stored into `extracted_data` only when the
    extracted `src` string is truthy. -/
def preprocess_content (v : SoupView) (elapsed : ℚ) (state : GraphState) :
    Except PyExc GraphState :=
  if truthy state.error then .ok state
  else if !truthy state.html_content then
    .ok { state with
          error := some "No HTML content found to preprocess."
          error_details := some { message := "No HTML content found to preprocess." } }
  else
    match v.chosenText with
    | none =>
      .error { name := "UnboundLocalError"
               msg := "local variable photo_url referenced before assignment" }
    | some text =>
      let m := dictSet state.metrics "preprocess_time_ms" elapsed
      match v.headshotImg with
      | some (some img) =>
        match img.src with
        | none =>
          .ok { state with
                preprocessed_content := none
                metrics := m
                error := pyOrStr state.error (some "An error occurred during HTML preprocessing")
                error_details := pyOrDet state.error_details
                  (some { exception_type := some "KeyError", message := "src" }) }
        | some u =>
          let st := { state with
                      preprocessed_content := some text
                      metrics := m
                      error := pyOrStr state.error none
                      error_details := pyOrDet state.error_details none }
          if u = "" then .ok st else .ok { st with extracted_data := some (.photoDict u) }
      | _ =>
        .ok { state with
              preprocessed_content := some text
              metrics := m
              error := pyOrStr state.error none
              error_details := pyOrDet state.error_details none }

/-! ## JSON values

The JSON decoder is external; `JValue` is the decoded value the node code
manipulates.  Non-integral JSON numbers do not occur in the claims and are
not distinguished from other non-string values by any embedded check except
degree-year normalization, which in Python converts exactly `int` (and
`bool`, a subclass of `int`) values. -/

/-- A decoded Python JSON value. -/
inductive JValue where
  | jnull
  | jbool (b : Bool)
  | jint (n : Int)
  | jstr (s : String)
  | jarr (xs : List JValue)
  | jobj (fields : List (String × JValue))

/-- Dictionary lookup on a decoded JSON object. -/
def jlookup (fields : List (String × JValue)) (k : String) : Option JValue :=
  fields.lookup k

/-! ## Extractor (`nodes.extract_data`)

The LLM call is a black box delivering either a typed API failure, an
arbitrary unexpected exception, or a reply whose text either decodes to a
`JValue` or fails JSON decoding; token counts are whichever numbers the
usage-metadata / fallback-tokenizer chain produced. -/

/-- Pydantic `Optional[str]` field validation (pydantic v2: `None` or `str`,
no coercion from other JSON types). -/
def optStrField (fields : List (String × JValue)) (k : String) : Option (Option String) :=
  match jlookup fields k with
  | none => some none
  | some .jnull => some none
  | some (.jstr s) => some (some s)
  | some _ => none

/-- Pydantic validation of one element of the `degrees` list. -/
def degreeFromJson : JValue → Option DegreeInfo
  | .jobj fs =>
    (optStrField fs "degree_type").bind fun dt =>
    (optStrField fs "institution").bind fun inst =>
    (optStrField fs "year").map fun yr =>
    { degree_type := dt, institution := inst, year := yr }
  | _ => none

/-- Pydantic validation of the `degrees` field
(`Optional[List[DegreeInfo]]`). -/
def degreesField (fields : List (String × JValue)) : Option (Option (List DegreeInfo)) :=
  match jlookup fields "degrees" with
  | none => some none
  | some .jnull => some none
  | some (.jarr xs) => (xs.mapM degreeFromJson).map some
  | some _ => none

/-- Pydantic validation of a single `str` element. -/
def jAsStr : JValue → Option String
  | .jstr s => some s
  | _ => none

/-- Pydantic validation of an `Optional[List[str]]` field. -/
def strListField (fields : List (String × JValue)) (k : String) :
    Option (Option (List String)) :=
  match jlookup fields k with
  | none => some none
  | some .jnull => some none
  | some (.jarr xs) => (xs.mapM jAsStr).map some
  | some _ => none

/-- Pydantic validation of the whole `ProfileData` model from the decoded
target object (`parser.parse` and the `ProfileData(**target_obj)` fallback
validate the same dictionary); extra keys are ignored, `source_url` is a
required `str`. -/
def profileFromJson (fields : List (String × JValue)) : Option ProfileData :=
  (match jlookup fields "source_url" with
   | some (.jstr s) => some s
   | _ => none).bind fun src =>
  (optStrField fields "photo_url").bind fun pu =>
  (optStrField fields "first_name").bind fun fn =>
  (optStrField fields "middle_name").bind fun mn =>
  (optStrField fields "last_name").bind fun ln =>
  (optStrField fields "title").bind fun ti =>
  (optStrField fields "office").bind fun off =>
  (optStrField fields "phone").bind fun ph =>
  (optStrField fields "email").bind fun em =>
  (optStrField fields "college_unit").bind fun cu =>
  (optStrField fields "department_division").bind fun dd =>
  (degreesField fields).bind fun dg =>
  (strListField fields "research_focus_areas").map fun rf =>
  { source_url := src, photo_url := pu, first_name := fn, middle_name := mn,
    last_name := ln, title := ti, office := off, phone := ph, email := em,
    college_unit := cu, department_division := dd, degrees := dg,
    research_focus_areas := rf }

/-- Degree-year normalization applied to one element of the `degrees` list:
`isinstance(degree["year"], int)` is true exactly for Python `int` and
`bool`, and the value is replaced by `str(...)`. -/
def normalizeDegreeYear : JValue → JValue
  | .jobj fs =>
    .jobj (fs.map fun p =>
      if p.1 = "year" then
        (p.1, match p.2 with
              | .jint n => .jstr (toString n)
              | .jbool b => .jstr (if b then "True" else "False")
              | v => v)
      else p)
  | v => v

/-- The degrees-list normalization block of `extract_data`. -/
def normalizeDegrees (fields : List (String × JValue)) : List (String × JValue) :=
  match jlookup fields "degrees" with
  | some (.jarr xs) => dictSet fields "degrees" (.jarr (xs.map normalizeDegreeYear))
  | _ => fields

/-- Exception classes relevant to the two nodes' `except` clauses. -/
inductive PyKind where
  | valueErr
  | typeErr
  | jsonDecode
  | validationErr
  | keyErr
  deriving DecidableEq, Repr

/-- The list-unwrapping step of `extract_data`: a one-element list is
unwrapped; a dict is used directly; anything else raises `ValueError`.  A
one-element list whose element is not a dict passes the unwrap but makes the
following `target_obj["source_url"] = ...` assignment raise `TypeError`. -/
def unwrapTarget : JValue → Except PyKind (List (String × JValue))
  | .jobj fs => .ok fs
  | .jarr [x] =>
    match x with
    | .jobj fs => .ok fs
    | _ => .error .typeErr
  | _ => .error .valueErr

/-- Outcome of the extraction LLM call as observed by `extract_data`. -/
inductive LlmOutcome where
  | apiError (name : String) (msg : String)
  | unexpectedExc (msg : String)
  | reply (input_tokens output_tokens : Nat) (parse : Option JValue)

/-- The `finally` block of `extract_data`: records time, token counts and
cost into the metrics dict. -/
def extractFinally (state : GraphState) (elapsed : ℚ) (it ot : Nat) (cost : ℚ) :
    List (String × ℚ) :=
  dictSet (dictSet (dictSet (dictSet state.metrics
    "extraction_time_ms" elapsed)
    "extraction_input_tokens" (it : ℚ))
    "extraction_output_tokens" (ot : ℚ))
    "cost_per_profile_extraction" cost

/-- `nodes.extract_data`.  A previous truthy `error` short-circuits; missing
`preprocessed_content` is replaced by `""` and extraction proceeds; every
failure path stores `extracted_data = None` (overwriting the photo dict a
successful preprocessing may have stored) and sets the error pair; the
success path injects `source_url`, forces the preprocessor's `photo_url`
onto the object, normalizes degree years and validates into `ProfileData`.
The debug-dump side effect is ignored. -/
def extract_data (o : LlmOutcome) (elapsed : ℚ) (state : GraphState) : GraphState :=
  if truthy state.error then state
  else
    let fail := fun (it ot : Nat) (cost : ℚ) (emsg ename : String) =>
      { state with
        extracted_data := none
        metrics := extractFinally state elapsed it ot cost
        error := pyOrStr state.error (some emsg)
        error_details := pyOrDet state.error_details (some { exception_type := some ename }) }
    match o with
    | .apiError name _ => fail 0 0 0 ("LLM API request failed: " ++ name) name
    | .unexpectedExc _ => fail 0 0 0 "An unexpected error occurred during data extraction" "Exception"
    | .reply it ot parse =>
      let cost := calculate_cost it ot
      match parse with
      | none => fail it ot cost "Failed to decode LLM output as JSON" "JSONDecodeError"
      | some pj =>
        match unwrapTarget pj with
        | .error .typeErr =>
          fail it ot cost "An unexpected error occurred during data extraction" "TypeError"
        | .error _ =>
          fail it ot cost "LLM output failed validation/parsing after successful call" "ValueError"
        | .ok fields =>
          let fields1 := dictSet fields "source_url" (.jstr state.url)
          let fields2 :=
            match state.extracted_data with
            | some (.photoDict u) => dictSet fields1 "photo_url" (.jstr u)
            | _ => fields1
          let fields3 := normalizeDegrees fields2
          match profileFromJson fields3 with
          | some p =>
            { state with
              extracted_data := some (.profile p)
              metrics := extractFinally state elapsed it ot cost
              error := pyOrStr state.error none
              error_details := pyOrDet state.error_details none }
          | none =>
            fail it ot cost "LLM output failed validation/parsing after successful call" "ValidationError"

/-! ## Validator (`nodes.validate_data`)

The judge LLM call is a black box; its reply text either decodes directly,
or a brace-delimited substring found by the regex fallback decodes, or no
JSON can be recovered.  The node then probes the decoded value with Python
`in` tests and subscript accesses, whose exception behaviour is embedded
exactly: `in` on `None`/numbers/booleans raises `TypeError`, subscripting a
string or list with a string key raises `TypeError`. -/

/-- Whether one character list occurs inside another (Python `in` on `str`). -/
def listInfixOf [BEq α] : List α → List α → Bool
  | xs, [] => xs.isEmpty
  | xs, y :: ys => xs.isPrefixOf (y :: ys) || listInfixOf xs ys

/-- Python `needle in hay` for strings. -/
def strContainsSub (needle hay : String) : Bool :=
  listInfixOf needle.data hay.data

/-- Python `needle in value`: key test on dicts, element test on lists,
substring test on strings, `TypeError` otherwise. -/
def jcontains (needle : String) : JValue → Except PyKind Bool
  | .jobj fs => .ok ((jlookup fs needle).isSome)
  | .jarr xs => .ok (xs.any fun x => match x with | .jstr s => s = needle | _ => false)
  | .jstr s => .ok (strContainsSub needle s)
  | _ => .error .typeErr

/-- Python `value[needle]`: dict subscription, `KeyError` when the key is
missing, `TypeError` on every non-dict value. -/
def jget (v : JValue) (k : String) : Except PyKind JValue :=
  match v with
  | .jobj fs =>
    match jlookup fs k with
    | some x => .ok x
    | none => .error .keyErr
  | _ => .error .typeErr

/-- The twelve `ProfileData` fields judged by the validator, in the
iteration order of the node's `field_mappings` dict. -/
inductive PField where
  | photo_url
  | first_name
  | middle_name
  | last_name
  | title
  | office
  | phone
  | email
  | college_unit
  | department_division
  | degrees
  | research_focus_areas
  deriving DecidableEq, Repr

/-- The bare field name used as a `field_mappings` key. -/
def PField.fieldName : PField → String
  | .photo_url => "photo_url"
  | .first_name => "first_name"
  | .middle_name => "middle_name"
  | .last_name => "last_name"
  | .title => "title"
  | .office => "office"
  | .phone => "phone"
  | .email => "email"
  | .college_unit => "college_unit"
  | .department_division => "department_division"
  | .degrees => "degrees"
  | .research_focus_areas => "research_focus_areas"

/-- The flat `<field>_status` key. -/
def PField.statusKey (f : PField) : String :=
  f.fieldName ++ "_status"

/-- The `elif field + "_status" in response_json` arm of the mapping loop. -/
def fieldStatusFlat (resp : JValue) (f : PField) : Except PyKind (Option JValue) := do
  let b ← jcontains f.statusKey resp
  if b then
    let sv ← jget resp f.statusKey
    pure (some sv)
  else
    pure none

/-- One iteration of the mapping loop: `some v` means `validation_values`
was overwritten with `v`, `none` means the `"Not Applicable"` default was
kept. -/
def fieldStatus (resp : JValue) (f : PField) : Except PyKind (Option JValue) := do
  let b1 ← jcontains f.fieldName resp
  if b1 then
    let bare ← jget resp f.fieldName
    let b2 ← jcontains "status" bare
    if b2 then
      let sv ← jget bare "status"
      pure (some sv)
    else
      fieldStatusFlat resp f
  else
    fieldStatusFlat resp f

/-- Pydantic coercion of a JSON value into `ValidationStatus` (exact member
value strings only). -/
def parseStatus : JValue → Option ValidationStatus
  | .jstr s =>
    if s = "Correct" then some .correct
    else if s = "Incorrect" then some .incorrect
    else if s = "Missing" then some .missing
    else if s = "Not Applicable" then some .notApplicable
    else none
  | _ => none

/-- Pydantic coercion of the `overall_comment` value (`Optional[str]`). -/
def parseComment : JValue → Option (Option String)
  | .jnull => some none
  | .jstr s => some (some s)
  | _ => none

/-- The `"Not Applicable"` default entry of `validation_values`. -/
def statusOrDefault (r : Option JValue) : JValue :=
  r.getD (.jstr "Not Applicable")

/-- The default `overall_comment` entry of `validation_values`. -/
def defaultComment : JValue :=
  .jstr "Validation performed with limited information."

/-- The whole parse-and-patch phase of `validate_data` applied to a decoded
judge response: the `overall_comment` probe, the twelve mapping-loop
iterations, then `ValidationResult(**validation_values)`. -/
def mapJudge (resp : JValue) : Except PyKind ValidationResult := do
  let cHas ← jcontains "overall_comment" resp
  let commentVal ← if cHas then jget resp "overall_comment" else pure defaultComment
  let v0 ← fieldStatus resp .photo_url
  let v1 ← fieldStatus resp .first_name
  let v2 ← fieldStatus resp .middle_name
  let v3 ← fieldStatus resp .last_name
  let v4 ← fieldStatus resp .title
  let v5 ← fieldStatus resp .office
  let v6 ← fieldStatus resp .phone
  let v7 ← fieldStatus resp .email
  let v8 ← fieldStatus resp .college_unit
  let v9 ← fieldStatus resp .department_division
  let v10 ← fieldStatus resp .degrees
  let v11 ← fieldStatus resp .research_focus_areas
  let build : Option ValidationResult :=
    (parseStatus (statusOrDefault v0)).bind fun s0 =>
    (parseStatus (statusOrDefault v1)).bind fun s1 =>
    (parseStatus (statusOrDefault v2)).bind fun s2 =>
    (parseStatus (statusOrDefault v3)).bind fun s3 =>
    (parseStatus (statusOrDefault v4)).bind fun s4 =>
    (parseStatus (statusOrDefault v5)).bind fun s5 =>
    (parseStatus (statusOrDefault v6)).bind fun s6 =>
    (parseStatus (statusOrDefault v7)).bind fun s7 =>
    (parseStatus (statusOrDefault v8)).bind fun s8 =>
    (parseStatus (statusOrDefault v9)).bind fun s9 =>
    (parseStatus (statusOrDefault v10)).bind fun s10 =>
    (parseStatus (statusOrDefault v11)).bind fun s11 =>
    (parseComment commentVal).map fun cm =>
    { photo_url_status := s0, first_name_status := s1, middle_name_status := s2,
      last_name_status := s3, title_status := s4, office_status := s5,
      phone_status := s6, email_status := s7, college_unit_status := s8,
      department_division_status := s9, degrees_status := s10,
      research_focus_areas_status := s11, overall_comment := cm }
  match build with
  | some vr => pure vr
  | none => .error .validationErr

/-- The JSON-recovery phase of the judge reply: direct decode, else decode
of the first brace-delimited substring the regex finds, else nothing. -/
inductive JudgeParse where
  | parsed (v : JValue)
  | decodeFail
  | noJsonFound

/-- Outcome of the judge LLM call as observed by `validate_data`. -/
inductive JudgeOutcome where
  | apiError (name : String) (msg : String)
  | unexpectedExc (msg : String)
  | reply (input_tokens output_tokens : Nat) (parse : JudgeParse)

/-- The `finally` block of `validate_data`. -/
def validateFinally (state : GraphState) (elapsed : ℚ) (it ot : Nat) (cost : ℚ) :
    List (String × ℚ) :=
  dictSet (dictSet (dictSet (dictSet state.metrics
    "validation_time_ms" elapsed)
    "validation_input_tokens" (it : ℚ))
    "validation_output_tokens" (ot : ℚ))
    "cost_per_profile_validation" cost

/-- `nodes.validate_data`.  A previous truthy `error`, falsy
`preprocessed_content` or falsy `extracted_data` returns the state untouched
(skip, not failure).  Inside the try block,
`extracted_data.model_dump(...)` raises `AttributeError` when
`extracted_data` is still the preprocessor's photo dict; that and every
`TypeError`/`KeyError` from response probing reach the blanket
`except Exception` handler, while `JSONDecodeError`,
`ValueError`/`ValidationError` have their own handlers.  Every failure sets
the error pair and leaves `validation_result = None`. -/
def validate_data (j : JudgeOutcome) (elapsed : ℚ) (state : GraphState) : GraphState :=
  if truthy state.error then state
  else if !truthy state.preprocessed_content then state
  else
    match state.extracted_data with
    | none => state
    | some ed =>
      let fail := fun (it ot : Nat) (cost : ℚ) (emsg ename : String) =>
        { state with
          validation_result := none
          metrics := validateFinally state elapsed it ot cost
          error := pyOrStr state.error (some emsg)
          error_details := pyOrDet state.error_details (some { exception_type := some ename }) }
      match ed with
      | .photoDict _ => fail 0 0 0 "An unexpected error occurred during validation" "AttributeError"
      | .profile _ =>
        match j with
        | .apiError name _ => fail 0 0 0 ("LLM Judge API request failed: " ++ name) name
        | .unexpectedExc _ => fail 0 0 0 "An unexpected error occurred during validation" "Exception"
        | .reply it ot parse =>
          let cost := calculate_cost it ot
          match parse with
          | .decodeFail =>
            fail it ot cost "Failed to decode LLM Judge output as JSON" "JSONDecodeError"
          | .noJsonFound =>
            fail it ot cost "LLM Judge output failed validation/parsing after successful call" "ValueError"
          | .parsed v =>
            match mapJudge v with
            | .ok vr =>
              { state with
                validation_result := some vr
                metrics := validateFinally state elapsed it ot cost
                error := pyOrStr state.error none
                error_details := pyOrDet state.error_details none }
            | .error .validationErr =>
              fail it ot cost "LLM Judge output failed validation/parsing after successful call" "ValidationError"
            | .error .valueErr =>
              fail it ot cost "LLM Judge output failed validation/parsing after successful call" "ValueError"
            | .error .jsonDecode =>
              fail it ot cost "Failed to decode LLM Judge output as JSON" "JSONDecodeError"
            | .error _ =>
              fail it ot cost "An unexpected error occurred during validation" "TypeError"

/-- `nodes.handle_error`: the terminal node only logs and returns the state
unchanged. -/
def handle_error (state : GraphState) : GraphState :=
  state

/-! ## Batch runner (`processing.process_url`, `processing.run_processing_loop`)

The compiled LangGraph application is a black box `invoke` function that
either returns a terminal state or raises; cooperative cancellation is a
flag sampled before each URL, modelled as a predicate on the number of URLs
already processed.  `thread_id` tracing metadata is omitted. -/

/-- `processing.process_url`: invoke the graph on the initial state for the
URL; any escaping exception becomes a terminal error dictionary (the
Python version stores `{"exception": type(e).__name__, "traceback": ...}`;
the embedding keeps the exception name and `str(e)`). -/
def process_url (invoke : GraphState → Except PyExc GraphState) (url : String) : GraphState :=
  match invoke (initialState url) with
  | .ok st => st
  | .error e =>
    { url := url
      error := some e.msg
      error_details := some { exception_type := some e.name, message := e.msg } }

/-- The `for url in urls` loop of `run_processing_loop`, carrying the count
of URLs already processed: the shutdown flag is sampled before each URL and
a set flag breaks out with `interrupted = True`. -/
def runLoop (pipeline : String → GraphState) (shutdown : Nat → Bool) :
    Nat → List String → List GraphState × Bool
  | _, [] => ([], false)
  | k, url :: rest =>
    if shutdown k then ([], true)
    else
      let r := runLoop pipeline shutdown (k + 1) rest
      (pipeline url :: r.1, r.2)

/-- `processing.run_processing_loop` (the `tqdm` progress bar and tracing
wrapper have no effect on results). -/
def run_processing_loop (urls : List String) (shutdown : Nat → Bool)
    (pipeline : String → GraphState) : List GraphState × Bool :=
  runLoop pipeline shutdown 0 urls

/-- The index at which the loop stops: the first count at which the shutdown
flag reads true, capped at the URL count. -/
def stopCount (shutdown : Nat → Bool) : Nat → Nat → Nat
  | _, 0 => 0
  | k, n + 1 => if shutdown k then 0 else stopCount shutdown (k + 1) n + 1

/-! ## Batch aggregation (`reporting.calculate_metrics` and the legacy copy
in `main.py`)

Both are modelled with no LangSmith client (`langsmith_token_count == 0`),
which is also the behaviour when the trace query yields no tokens; the
results list elements are terminal `GraphState` records. -/

/-- Per-result cost contribution
(`cost_per_profile_extraction + cost_per_profile_validation`, default 0). -/
def resultCost (r : GraphState) : ℚ :=
  mget r.metrics "cost_per_profile_extraction" + mget r.metrics "cost_per_profile_validation"

/-- Per-result token contribution (four token keys, default 0). -/
def resultTokens (r : GraphState) : ℚ :=
  mget r.metrics "extraction_input_tokens" + mget r.metrics "extraction_output_tokens" +
  mget r.metrics "validation_input_tokens" + mget r.metrics "validation_output_tokens"

/-- Per-result processing-time contribution (four timing keys, default 0). -/
def resultTime (r : GraphState) : ℚ :=
  mget r.metrics "fetch_time_ms" + mget r.metrics "preprocess_time_ms" +
  mget r.metrics "extraction_time_ms" + mget r.metrics "validation_time_ms"

/-- The average price per token used by the cost-based token estimate. -/
def avgPricePerToken : ℚ :=
  (GEMINI_FLASH_PRICING_input + GEMINI_FLASH_PRICING_output) / 2

/-- The aggregate metrics dictionary produced by
`reporting.calculate_metrics`. -/
structure BatchMetrics where
  total_urls : Nat
  successful_extractions : Nat
  failed_extractions : Nat
  total_cost : ℚ
  total_tokens : ℚ
  total_processing_time_ms : ℚ
  average_cost_per_successful_profile : ℚ
  average_tokens_per_successful_profile : ℚ
  average_processing_time_ms_per_successful_profile : ℚ
  tokens_source : Option String := none
  deriving DecidableEq, Repr

namespace Reporting

/-- `reporting.calculate_metrics`: success iff `extracted_data` is truthy;
`failed = total - successful`; sums over the per-result metrics dicts;
averages guarded by `successful > 0` and computed before the cost-based
token-estimate fallback. -/
def calculate_metrics (results : List GraphState) : BatchMetrics :=
  let total := results.length
  let success := (results.filter fun r => r.extracted_data.isSome).length
  let cost := (results.map resultCost).sum
  let tokens := (results.map resultTokens).sum
  let time := (results.map resultTime).sum
  let source0 : Option String :=
    if results.isEmpty then none else some "estimated_from_results"
  let avgCost := if 0 < success then cost / success else 0
  let avgTokens := if 0 < success then tokens / success else 0
  let avgTime := if 0 < success then time / success else 0
  let fallback :=
    source0 = some "estimated_from_results" ∧ tokens = 0 ∧ 0 < cost ∧ 0 < avgPricePerToken
  let est : ℚ := ((cost / avgPricePerToken).floor : ℚ)
  let useEst := fallback ∧ 0 < est
  { total_urls := total
    successful_extractions := success
    failed_extractions := total - success
    total_cost := cost
    total_tokens := if useEst then est else tokens
    total_processing_time_ms := time
    average_cost_per_successful_profile := avgCost
    average_tokens_per_successful_profile := avgTokens
    average_processing_time_ms_per_successful_profile := avgTime
    tokens_source := if useEst then some "estimated_from_cost_fallback" else source0 }

end Reporting

/-- The aggregate metrics dictionary produced by `main.calculate_metrics`
(the averages use different keys and are only present when
`successful_extractions > 0`). -/
structure MainMetrics where
  total_urls : Nat
  successful_extractions : Nat
  failed_extractions : Nat
  total_cost : ℚ
  total_tokens : ℚ
  total_processing_time_ms : ℚ
  average_cost_per_profile : Option ℚ := none
  average_tokens_per_profile : Option ℚ := none
  average_processing_time_s : Option ℚ := none
  tokens_source : Option String := none
  deriving DecidableEq, Repr

namespace MainLegacy

/-- `main.calculate_metrics` (the legacy copy): a result with a truthy
`error` increments `failed_extractions`, otherwise a truthy
`extracted_data` increments `successful_extractions`; a result with neither
is counted in neither bucket. -/
def calculate_metrics (results : List GraphState) : MainMetrics :=
  let total := results.length
  let failed := (results.filter fun r => truthy r.error).length
  let success :=
    (results.filter fun r => !truthy r.error && r.extracted_data.isSome).length
  let cost := (results.map resultCost).sum
  let tokens := (results.map resultTokens).sum
  let time := (results.map resultTime).sum
  let avgCost := if 0 < success then some (cost / success) else none
  let avgTokens := if 0 < success then some (tokens / success) else none
  let avgTimeS := if 0 < success then some (time / 1000 / success) else none
  let est : ℚ := ((cost / avgPricePerToken).floor : ℚ)
  let useEst := tokens = 0 ∧ 0 < cost ∧ 0 < est
  { total_urls := total
    successful_extractions := success
    failed_extractions := failed
    total_cost := cost
    total_tokens := if useEst then est else tokens
    total_processing_time_ms := time
    average_cost_per_profile := avgCost
    average_tokens_per_profile := avgTokens
    average_processing_time_s := avgTimeS
    tokens_source := if useEst then some "estimated_from_cost" else none }

end MainLegacy

/-! ## Statement vocabulary for the validator claims

These definitions are pure (exception-free) restatements of what the
mapping loop computes, used to phrase the amended judge-resilience claim:
`jcontainsB`/`memSafe` mirror the membership probes, `fieldStatusSpec` the
value a field's `validation_values` entry ends with, `judgeOk` the decidable
condition under which the loop and the final pydantic validation cannot
raise, and `mkVerdict` the produced `ValidationResult`. -/

/-- Pure version of the membership probe on values where it cannot raise. -/
def jcontainsB (needle : String) : JValue → Bool
  | .jobj fs => (jlookup fs needle).isSome
  | .jarr xs => xs.any fun x => match x with | .jstr s => s = needle | _ => false
  | .jstr s => strContainsSub needle s
  | _ => false

/-- Values on which a Python `in` probe does not raise `TypeError`. -/
def memSafe : JValue → Bool
  | .jobj _ => true
  | .jarr _ => true
  | .jstr _ => true
  | _ => false

/-- Whether a JSON value passes pydantic `ValidationStatus` coercion. -/
def validStatus (v : JValue) : Bool :=
  (parseStatus v).isSome

/-- Condition under which the flat `<field>_status` arm neither raises nor
stores a pydantic-invalid status. -/
def flatOk (fs : List (String × JValue)) (f : PField) : Bool :=
  (jlookup fs f.statusKey).elim true validStatus

/-- The nested `response_json[field]["status"]` value, when the bare value
is a dict. -/
def bareStatus : JValue → Option JValue
  | .jobj bfs => jlookup bfs "status"
  | _ => none

/-- Condition under which one mapping-loop iteration neither raises nor
stores a pydantic-invalid status: the bare value (when present) must be
membership-probe-safe, a nested `status` must live under a dict and be a
valid status, and a flat status value must be valid. -/
def fieldOk (fs : List (String × JValue)) (f : PField) : Bool :=
  (jlookup fs f.fieldName).elim (flatOk fs f) fun bv =>
    memSafe bv &&
      (if jcontainsB "status" bv then (bareStatus bv).elim false validStatus
       else flatOk fs f)

/-- Condition under which the `overall_comment` value passes pydantic
`Optional[str]` validation. -/
def commentOk (fs : List (String × JValue)) : Bool :=
  (jlookup fs "overall_comment").elim true fun cv => (parseComment cv).isSome

/-- The twelve judged fields in mapping-loop order. -/
def pfields : List PField :=
  [.photo_url, .first_name, .middle_name, .last_name, .title, .office, .phone,
   .email, .college_unit, .department_division, .degrees, .research_focus_areas]

/-- A decoded judge object on which the mapping loop and the final pydantic
validation are guaranteed not to raise. -/
def judgeOk (fs : List (String × JValue)) : Bool :=
  commentOk fs && pfields.all fun f => fieldOk fs f

/-- The value a field's `validation_values` entry is overwritten with
(`none` = the `"Not Applicable"` default is kept). -/
def fieldStatusSpec (fs : List (String × JValue)) (f : PField) : Option JValue :=
  (jlookup fs f.fieldName).elim (jlookup fs f.statusKey) fun bv =>
    if jcontainsB "status" bv then bareStatus bv else jlookup fs f.statusKey

/-- A field whose status the parsed response does not determine. -/
def statusAbsent (fs : List (String × JValue)) (f : PField) : Bool :=
  (fieldStatusSpec fs f).isNone

/-- The status each judged field ends with. -/
def specStatus (fs : List (String × JValue)) (f : PField) : ValidationStatus :=
  (parseStatus (statusOrDefault (fieldStatusSpec fs f))).getD .notApplicable

/-- The `overall_comment` the verdict ends with. -/
def specComment (fs : List (String × JValue)) : Option String :=
  (jlookup fs "overall_comment").elim
    (some "Validation performed with limited information.")
    fun cv => (parseComment cv).getD none

/-- The verdict produced from a well-behaved judge object. -/
def mkVerdict (fs : List (String × JValue)) : ValidationResult :=
  { photo_url_status := specStatus fs .photo_url
    first_name_status := specStatus fs .first_name
    middle_name_status := specStatus fs .middle_name
    last_name_status := specStatus fs .last_name
    title_status := specStatus fs .title
    office_status := specStatus fs .office
    phone_status := specStatus fs .phone
    email_status := specStatus fs .email
    college_unit_status := specStatus fs .college_unit
    department_division_status := specStatus fs .department_division
    degrees_status := specStatus fs .degrees
    research_focus_areas_status := specStatus fs .research_focus_areas
    overall_comment := specComment fs }

/-- Projection of a `ValidationResult` status by field. -/
def verdictStatus (vr : ValidationResult) : PField → ValidationStatus
  | .photo_url => vr.photo_url_status
  | .first_name => vr.first_name_status
  | .middle_name => vr.middle_name_status
  | .last_name => vr.last_name_status
  | .title => vr.title_status
  | .office => vr.office_status
  | .phone => vr.phone_status
  | .email => vr.email_status
  | .college_unit => vr.college_unit_status
  | .department_division => vr.department_division_status
  | .degrees => vr.degrees_status
  | .research_focus_areas => vr.research_focus_areas_status

/-! ## Concrete inputs used by counterexamples and witnesses -/

/-- Concrete state for the C1 counterexample: `error` is non-null but falsy
(the empty string), which the nodes' `if state.get("error")` check does not
treat as an error. -/
def cexSticky : GraphState :=
  { url := "u", html_content := some "<html><body>hi</body></html>", error := some "" }

/-- Parsed-tree view of the C1 counterexample page. -/
def cexStickySoup : SoupView :=
  { bodyText := "hi" }

/-- State used by the C1 witness. -/
def wErrState : GraphState :=
  { url := "u", error := some "boom" }

/-- Parsed-tree view for the C8 counterexample: the headshot container and
its `<img>` exist, but the `<img>` has no `src` attribute, so
`img_tag["src"]` raises `KeyError`. -/
def cexNoSrcSoup : SoupView :=
  { selectorContainer := some "profile text", headshotImg := some (some {}) }

/-- Input state for the C8 counterexample. -/
def cexNoSrcState : GraphState :=
  { url := "u", html_content := some "<html>x</html>" }

/-- The ten URLs of the C2 interruption scenario. -/
def urls10 : List String :=
  ["u0", "u1", "u2", "u3", "u4", "u5", "u6", "u7", "u8", "u9"]

/-- A graph invocation that always raises, for the C4 witness. -/
def badInvoke : GraphState → Except PyExc GraphState :=
  fun _ => .error { name := "RuntimeError", msg := "boom" }

/-- A successful result carrying the C3 example's extraction cost. -/
def exSuccess : GraphState :=
  { url := "u1", extracted_data := some (.profile { source_url := "u1" }),
    metrics := [("cost_per_profile_extraction", 2 / 1000)] }

/-- The C3 example's failed result. -/
def exFailure : GraphState :=
  { url := "u2", error := some "boom" }

/-- A terminal state in which extraction succeeded but the validation step
then failed and set `error` — the input on which the two `calculate_metrics`
copies disagree. -/
def exValFailed : GraphState :=
  { url := "u3",
    error := some "LLM Judge output failed validation/parsing after successful call",
    extracted_data := some (.profile { source_url := "u3" }) }

/-- Concrete inputs for the C5 witness: the preprocessor found
`/img/a.jpg`, the LLM reply proposes a different `photo_url`. -/
def wPhotoState : GraphState :=
  { url := "https://e.edu/p", preprocessed_content := some "text",
    extracted_data := some (.photoDict "/img/a.jpg") }

/-- The decoded LLM reply for the C5 witness. -/
def wLlmReply : JValue :=
  .jobj [("first_name", .jstr "Ann"), ("photo_url", .jstr "/img/WRONG.jpg")]

/-- Validation-ready state for the C6 counterexample and witness. -/
def cexJudgeState : GraphState :=
  { url := "u", preprocessed_content := some "text",
    extracted_data := some (.profile { source_url := "u" }) }

/-- The C6 counterexample judge object: `{"phone": null}` is a parseable
JSON object, but `"status" in None` raises `TypeError`. -/
def cexJudgeResp : JValue :=
  .jobj [("phone", .jnull)]

/-- The C6 witness judge object: one well-formed flat status key, every
other status key missing. -/
def wJudgeResp : List (String × JValue) :=
  [("first_name_status", .jstr "Correct")]

/-! ## Helper lemmas -/

theorem lookup_dictSet_self (m : List (String × α)) (k : String) (v : α) :
    (dictSet m k v).lookup k = some v := by
  induction m with
  | nil => simp [dictSet, List.lookup]
  | cons p rest ih =>
    by_cases h : p.1 = k
    · simp [dictSet, h, List.lookup]
    · have hb : (k == p.1) = false := by
        simp only [beq_eq_false_iff_ne, ne_eq]
        exact fun e => h e.symm
      simp [dictSet, h, List.lookup, hb, ih]

theorem lookup_dictSet_ne (m : List (String × α)) (k k' : String) (v : α)
    (h : k' ≠ k) : (dictSet m k v).lookup k' = m.lookup k' := by
  induction m with
  | nil =>
    have hb : (k' == k) = false := by simp [beq_eq_false_iff_ne, h]
    simp [dictSet, List.lookup, hb]
  | cons p rest ih =>
    by_cases hk : p.1 = k
    · have hb : (k' == k) = false := by simp [beq_eq_false_iff_ne, h]
      simp [dictSet, hk, List.lookup, hb]
    · simp only [dictSet, if_neg hk]
      by_cases hk' : (k' == p.1) = true
      · simp [List.lookup, hk']
      · simp only [List.lookup, hk']
        simpa [Bool.not_eq_true] using ih

/-! ## Claim C1 — sticky-error invariant -/

/-- C1 counterexample: on a state whose `error` is the non-null empty
string, `preprocess_content` does not return the state unchanged — it runs,
writes `preprocessed_content`, and its final
`state.get("error") or error_message` resets `error` to null. -/
theorem sticky_error_counterexample :
    cexSticky.error.isSome = true ∧
    preprocess_content cexStickySoup 5 cexSticky =
      .ok { cexSticky with
            preprocessed_content := some "hi"
            metrics := [("preprocess_time_ms", 5)]
            error := none
            error_details := none } := by
  exact ⟨rfl, rfl⟩

/-- C1 (amended): for every pipeline state whose `error` is truthy (non-null
and non-empty — the condition the code actually tests), each of
`preprocess_content`, `extract_data` and `validate_data` returns the state
unchanged, under any behaviour of the external collaborators. -/
theorem sticky_error_skips_steps (s : GraphState) (v : SoupView) (e1 e2 e3 : ℚ)
    (o : LlmOutcome) (j : JudgeOutcome) (h : truthy s.error = true) :
    preprocess_content v e1 s = .ok s ∧
    extract_data o e2 s = s ∧
    validate_data j e3 s = s := by
  refine ⟨?_, ?_, ?_⟩
  · simp [preprocess_content, h]
  · simp [extract_data, h]
  · simp [validate_data, h]

/-- C1 witness: the amended sticky-error theorem applied at a concrete
errored state and concrete step inputs. -/
theorem sticky_error_skips_steps_witness :
    preprocess_content cexStickySoup 1 wErrState = .ok wErrState ∧
    extract_data (.unexpectedExc "x") 2 wErrState = wErrState ∧
    validate_data (.unexpectedExc "y") 3 wErrState = wErrState :=
  sticky_error_skips_steps wErrState cexStickySoup 1 2 3
    (.unexpectedExc "x") (.unexpectedExc "y") (by decide)

/-! ## Claim C7 — fetcher status handling -/

/-- C7 counterexample: a 304 response is not 2xx, yet `raise_for_status`
does not raise for it, so `fetch_html` stores the body and leaves `error`
null instead of recording an `HTTPError`. -/
theorem fetch_non2xx_counterexample :
    (¬(200 ≤ 304 ∧ 304 < 300)) ∧
    (fetch_html (.response 304 "cached") 7 (initialState "u")).error = none ∧
    (fetch_html (.response 304 "cached") 7 (initialState "u")).html_content = some "cached" := by
  refine ⟨by decide, rfl, rfl⟩

/-- C7 (amended): a response with a 4xx or 5xx status is an `HTTPError`
failure whose details carry the status code; every other status (2xx, but
also 1xx/3xx) stores the body with `error` null; and `fetch_time_ms` is
recorded on every outcome, failures included. -/
theorem fetch_html_status_classification (status : Nat) (body : String) (q : ℚ)
    (s : GraphState) :
    (400 ≤ status ∧ status < 600 →
      (fetch_html (.response status body) q s).error = some "Failed to fetch URL" ∧
      (fetch_html (.response status body) q s).error_details =
        some { exception_type := some "HTTPError", status_code := some status } ∧
      (fetch_html (.response status body) q s).html_content = none) ∧
    (¬(400 ≤ status ∧ status < 600) →
      (fetch_html (.response status body) q s).error = none ∧
      (fetch_html (.response status body) q s).html_content = some body) ∧
    (∀ ev : HttpEvent, ((fetch_html ev q s).metrics).lookup "fetch_time_ms" = some q) := by
  refine ⟨?_, ?_, ?_⟩
  · intro h
    have hb : raise_for_status status = true := by
      simp [raise_for_status]
      omega
    refine ⟨?_, ?_, ?_⟩ <;> simp [fetch_html, hb]
  · intro h
    have hb : raise_for_status status = false := by
      simp [raise_for_status]
      omega
    refine ⟨?_, ?_⟩ <;> simp [fetch_html, hb]
  · intro ev
    cases ev with
    | response st body =>
      by_cases hb : raise_for_status st
      · simp [fetch_html, hb, lookup_dictSet_self]
      · simp [fetch_html, hb, lookup_dictSet_self]
    | timeout msg => simp [fetch_html, lookup_dictSet_self]
    | connError msg => simp [fetch_html, lookup_dictSet_self]
    | unexpectedExc msg => simp [fetch_html, lookup_dictSet_self]

/-- C7 witness: the classification theorem applied at a 404 failure, a 204
success and a timeout. -/
theorem fetch_html_status_classification_witness :
    (fetch_html (.response 404 "nf") 3 (initialState "u")).error = some "Failed to fetch URL" ∧
    (fetch_html (.response 204 "") 3 (initialState "u")).error = none ∧
    ((fetch_html (.timeout "t") 3 (initialState "u")).metrics).lookup "fetch_time_ms" = some 3 :=
  ⟨((fetch_html_status_classification 404 "nf" 3 (initialState "u")).1 (by decide)).1,
   ((fetch_html_status_classification 204 "" 3 (initialState "u")).2.1 (by decide)).1,
   (fetch_html_status_classification 404 "x" 3 (initialState "u")).2.2 (.timeout "t")⟩

/-! ## Claim C8 — photo lookup is best effort -/

/-- C8 counterexample: a page on which no photo can be located (the `<img>`
inside the headshot container has no `src`) makes the preprocess step fail:
`error` is set and `preprocessed_content` stays null, although a content
region was found. -/
theorem photo_lookup_counterexample :
    preprocess_content cexNoSrcSoup 5 cexNoSrcState =
      .ok { cexNoSrcState with
            preprocessed_content := none
            metrics := [("preprocess_time_ms", 5)]
            error := some "An error occurred during HTML preprocessing"
            error_details := some { exception_type := some "KeyError", message := "src" } } := by
  rfl

/-- C8 (amended): whenever the headshot container is absent or contains no
`<img>` tag, the photo lookup never fails the step: given a content region,
preprocessing succeeds with `error` null and stores the region text.  (An
`<img>` lacking a `src` attribute, by contrast, fails the step.) -/
theorem photo_lookup_best_effort (v : SoupView) (q : ℚ) (s : GraphState) (t : String)
    (herr : truthy s.error = false) (hhtml : truthy s.html_content = true)
    (hphoto : v.headshotImg = none ∨ v.headshotImg = some none)
    (hc : v.chosenText = some t) :
    preprocess_content v q s =
      .ok { s with
            preprocessed_content := some t
            metrics := dictSet s.metrics "preprocess_time_ms" q
            error := none
            error_details := pyOrDet s.error_details none } := by
  have hor : pyOrStr s.error none = none := by
    simp [pyOrStr, herr]
  rcases hphoto with h | h <;>
    simp [preprocess_content, herr, hhtml, hc, h, hor]

/-- C8 witness: the amended best-effort theorem applied at a concrete page
with no headshot container. -/
theorem photo_lookup_best_effort_witness :
    preprocess_content { selectorContainer := some "txt" } 2
        { url := "u", html_content := some "<p>y</p>" } =
      .ok { url := "u", html_content := some "<p>y</p>",
            preprocessed_content := some "txt",
            metrics := [("preprocess_time_ms", 2)] } := by
  have h := photo_lookup_best_effort { selectorContainer := some "txt" } 2
    { url := "u", html_content := some "<p>y</p>" } "txt"
    (by decide) (by decide) (Or.inl rfl) rfl
  simpa using h

/-! ## Claims C2 and C4 — batch loop -/

theorem stopCount_le (shutdown : Nat → Bool) (k n : Nat) :
    stopCount shutdown k n ≤ n := by
  induction n generalizing k with
  | zero => simp [stopCount]
  | succ n ih =>
    by_cases h : shutdown k = true
    · simp [stopCount, h]
    · have := ih (k + 1)
      simp [stopCount, h]
      omega

theorem stopCount_false (k n : Nat) :
    stopCount (fun _ => false) k n = n := by
  induction n generalizing k with
  | zero => simp [stopCount]
  | succ n ih => simp [stopCount, ih]

theorem stopCount_threshold (k : Nat) (n j : Nat) :
    stopCount (fun i => decide (k ≤ i)) j n = min (k - j) n := by
  induction n generalizing j with
  | zero => simp [stopCount]
  | succ n ih =>
    by_cases hj : k ≤ j
    · simp only [stopCount, decide_eq_true_eq, if_pos hj]
      omega
    · simp only [stopCount, decide_eq_true_eq, if_neg hj, ih (j + 1)]
      omega

theorem runLoop_eq (pipeline : String → GraphState) (shutdown : Nat → Bool)
    (k : Nat) (urls : List String) :
    runLoop pipeline shutdown k urls =
      ((urls.take (stopCount shutdown k urls.length)).map pipeline,
        decide (stopCount shutdown k urls.length < urls.length)) := by
  induction urls generalizing k with
  | nil => simp [runLoop, stopCount]
  | cons u rest ih =>
    by_cases h : shutdown k = true
    · simp [runLoop, stopCount, h]
    · simp [runLoop, stopCount, h, ih (k + 1), List.take_succ_cons,
        Nat.succ_lt_succ_iff]

/-- C2: the batch runner yields exactly one terminal state per URL started,
in input order, under every behaviour of the cancellation flag — there is
always a stop index `n` with the results equal to the pipeline mapped over
the first `n` URLs and the interrupted flag true exactly when not all URLs
ran; and for the flag that becomes set after `k` URLs have been processed,
exactly the first `k` results are returned, with `interrupted` true whenever
`k` is less than the URL count (partial results are returned, never
discarded). -/
theorem run_loop_results_per_started_url (urls : List String)
    (pipeline : String → GraphState) :
    (∀ shutdown : Nat → Bool, ∃ n, n ≤ urls.length ∧
       run_processing_loop urls shutdown pipeline =
         ((urls.take n).map pipeline, decide (n < urls.length))) ∧
    (∀ k : Nat, k ≤ urls.length →
       run_processing_loop urls (fun i => decide (k ≤ i)) pipeline =
         ((urls.take k).map pipeline, decide (k < urls.length))) := by
  constructor
  · intro shutdown
    exact ⟨stopCount shutdown 0 urls.length, stopCount_le shutdown 0 urls.length,
      runLoop_eq pipeline shutdown 0 urls⟩
  · intro k hk
    have h := runLoop_eq pipeline (fun i => decide (k ≤ i)) 0 urls
    rw [run_processing_loop, h, stopCount_threshold]
    have hmin : min (k - 0) urls.length = k := by omega
    rw [hmin]

/-- C2 witness: ten URLs and a cancellation flag set after the fourth —
exactly four results and `interrupted = true`. -/
theorem run_loop_results_per_started_url_witness :
    (run_processing_loop urls10 (fun i => decide (4 ≤ i)) initialState).1.length = 4 ∧
    (run_processing_loop urls10 (fun i => decide (4 ≤ i)) initialState).2 = true := by
  have h := (run_loop_results_per_started_url urls10 initialState).2 4 (by decide)
  rw [h]
  exact ⟨by decide, by decide⟩

/-- C4: any exception escaping the graph invocation for a URL is caught by
`process_url` and converted into a terminal result with `error` and
`error_details` set and the URL preserved; and the batch loop (with the
cancellation flag never set) still returns one result per URL without
aborting, whatever the graph invocation does. -/
theorem process_url_isolates (invoke : GraphState → Except PyExc GraphState)
    (url : String) (e : PyExc)
    (h : invoke (initialState url) = .error e) :
    ((process_url invoke url).url = url ∧
     (process_url invoke url).error = some e.msg ∧
     (process_url invoke url).error_details =
       some { exception_type := some e.name, message := e.msg }) ∧
    (∀ urls : List String,
       (run_processing_loop urls (fun _ => false) (process_url invoke)).1.length =
         urls.length ∧
       (run_processing_loop urls (fun _ => false) (process_url invoke)).2 = false) := by
  constructor
  · refine ⟨?_, ?_, ?_⟩ <;> simp [process_url, h]
  · intro urls
    have h2 := runLoop_eq (process_url invoke) (fun _ => false) 0 urls
    rw [run_processing_loop, h2, stopCount_false]
    simp

/-- C4 witness: the isolation theorem applied to an invocation that raises
on every URL. -/
theorem process_url_isolates_witness :
    (process_url badInvoke "u").error = some "boom" ∧
    (run_processing_loop ["u", "v"] (fun _ => false) (process_url badInvoke)).1.length = 2 := by
  have h := process_url_isolates badInvoke "u" { name := "RuntimeError", msg := "boom" } rfl
  exact ⟨h.1.2.1, (h.2 ["u", "v"]).1⟩

/-! ## Claims C3 and C10 — batch aggregation -/

/-- C3: `reporting.calculate_metrics` counts a result as a successful
extraction exactly when `extracted_data` is non-null (independent of the
validation outcome), puts `failed = total - successful`, and sums the two
per-result cost keys; the claim's two-element example evaluates to
`successful = 1`, `failed = 1`, `total_cost = 0.002`.  The legacy copy in
`main.py`, by contrast, counts a validation-failed result (error set,
extraction present) as a failure — successful 0, failed 1 — contradicting
its own inline comment. -/
theorem batch_aggregation_success_counting :
    (∀ results : List GraphState,
       (Reporting.calculate_metrics results).successful_extractions =
         (results.filter fun r => r.extracted_data.isSome).length ∧
       (Reporting.calculate_metrics results).failed_extractions =
         results.length - (results.filter fun r => r.extracted_data.isSome).length ∧
       (Reporting.calculate_metrics results).total_cost = (results.map resultCost).sum) ∧
    ((Reporting.calculate_metrics [exSuccess, exFailure]).successful_extractions = 1 ∧
     (Reporting.calculate_metrics [exSuccess, exFailure]).failed_extractions = 1 ∧
     (Reporting.calculate_metrics [exSuccess, exFailure]).total_cost = 2 / 1000) ∧
    ((MainLegacy.calculate_metrics [exValFailed]).successful_extractions = 0 ∧
     (MainLegacy.calculate_metrics [exValFailed]).failed_extractions = 1) := by
  refine ⟨fun results => ⟨rfl, rfl, rfl⟩, ⟨by decide, by decide, ?_⟩,
    by decide, by decide⟩
  show (Reporting.calculate_metrics [exSuccess, exFailure]).total_cost = 2 / 1000
  simp [Reporting.calculate_metrics, resultCost, exSuccess, exFailure, mget, List.lookup]

/-- C10: on any result list with no successful extraction, aggregation is
total — zero successes, `failed = total`, and all three per-successful
averages are the guarded default `0.0`; the divisions are only evaluated
under the `successful > 0` guard. -/
theorem aggregation_zero_success (results : List GraphState)
    (h : ∀ r ∈ results, r.extracted_data = none) :
    (Reporting.calculate_metrics results).successful_extractions = 0 ∧
    (Reporting.calculate_metrics results).failed_extractions = results.length ∧
    (Reporting.calculate_metrics results).average_cost_per_successful_profile = 0 ∧
    (Reporting.calculate_metrics results).average_tokens_per_successful_profile = 0 ∧
    (Reporting.calculate_metrics results).average_processing_time_ms_per_successful_profile = 0 := by
  have hf : (results.filter fun r => r.extracted_data.isSome) = [] := by
    rw [List.filter_eq_nil_iff]
    intro a ha
    simp [h a ha]
  simp [Reporting.calculate_metrics, hf]

/-- C10 witness: the zero-success theorem applied at the empty result
list. -/
theorem aggregation_zero_success_witness :
    (Reporting.calculate_metrics []).successful_extractions = 0 ∧
    (Reporting.calculate_metrics []).failed_extractions = 0 ∧
    (Reporting.calculate_metrics []).average_cost_per_successful_profile = 0 ∧
    (Reporting.calculate_metrics []).average_tokens_per_successful_profile = 0 ∧
    (Reporting.calculate_metrics []).average_processing_time_ms_per_successful_profile = 0 := by
  have h := aggregation_zero_success [] (by intro r hr; cases hr)
  simpa using h

/-! ## Claims C5 and C9 — extractor merge rule and failure overwrite -/

theorem profileFromJson_photo (fs : List (String × JValue)) (p : ProfileData)
    (h : profileFromJson fs = some p) :
    optStrField fs "photo_url" = some p.photo_url := by
  unfold profileFromJson at h
  simp only [Option.bind_eq_some, Option.map_eq_some'] at h
  obtain ⟨src, hsrc, pu, hpu, fn, hfn, mn, hmn, ln, hln, ti, hti, off, hoff, ph, hph,
    em, hem, cu, hcu, dd, hdd, dg, hdg, rf, hrf, hp⟩ := h
  rw [← hp]
  exact hpu

theorem jlookup_normalizeDegrees_ne (fs : List (String × JValue)) (k : String)
    (h : k ≠ "degrees") :
    jlookup (normalizeDegrees fs) k = jlookup fs k := by
  unfold normalizeDegrees
  cases hd : jlookup fs "degrees" with
  | none => rfl
  | some v =>
    cases v with
    | jarr xs => exact lookup_dictSet_ne fs "degrees" k _ h
    | jnull => rfl
    | jbool b => rfl
    | jint n => rfl
    | jstr s => rfl
    | jobj o => rfl

/-- C5: whenever the preprocessor located a photo URL (the state carries the
`{"photo_url": u}` dict) and the extractor step ends with a parsed
`ProfileData`, that record's `photo_url` equals the preprocessor's value —
whatever the LLM reply contained for that field, the structурally extracted
value wins. -/
theorem photo_url_merge (o : LlmOutcome) (elapsed : ℚ) (s : GraphState)
    (u : String) (p : ProfileData)
    (hpre : s.extracted_data = some (.photoDict u))
    (hout : (extract_data o elapsed s).extracted_data = some (.profile p)) :
    p.photo_url = some u := by
  by_cases h0 : truthy s.error = true
  · simp [extract_data, h0, hpre] at hout
  · rw [Bool.not_eq_true] at h0
    cases o with
    | apiError name msg => simp [extract_data, h0] at hout
    | unexpectedExc msg => simp [extract_data, h0] at hout
    | reply it ot parse =>
      cases parse with
      | none => simp [extract_data, h0] at hout
      | some pj =>
        rcases hu : unwrapTarget pj with k | fields
        · cases k <;> simp [extract_data, h0, hu] at hout
        · rcases hpj : profileFromJson (normalizeDegrees
            (dictSet (dictSet fields "source_url" (.jstr s.url)) "photo_url" (.jstr u)))
            with _ | p2
          · simp [extract_data, h0, hu, hpre, hpj] at hout
          · simp only [extract_data, h0, hu, hpre, hpj] at hout
            simp at hout
            have hopt := profileFromJson_photo _ _ hpj
            have hl : jlookup (normalizeDegrees
                (dictSet (dictSet fields "source_url" (.jstr s.url)) "photo_url" (.jstr u)))
                "photo_url" = some (.jstr u) := by
              rw [jlookup_normalizeDegrees_ne _ _ (by decide)]
              exact lookup_dictSet_self _ _ _
            unfold optStrField at hopt
            rw [hl] at hopt
            simp at hopt
            rw [← hout]
            exact hopt.symm

/-- C5 witness: the merge theorem applied at a concrete state and reply in
which the LLM proposed a conflicting photo URL. -/
theorem photo_url_merge_witness :
    ((extract_data (.reply 10 5 (some wLlmReply)) 4 wPhotoState).extracted_data =
      some (.profile { source_url := "https://e.edu/p", photo_url := some "/img/a.jpg",
                       first_name := some "Ann" })) ∧
    ({ source_url := "https://e.edu/p", photo_url := some "/img/a.jpg",
       first_name := some "Ann" : ProfileData }).photo_url = some "/img/a.jpg" := by
  constructor
  · decide
  · exact photo_url_merge (.reply 10 5 (some wLlmReply)) 4 wPhotoState "/img/a.jpg"
      _ rfl (by decide)

/-- C9: when the extractor step runs on an error-free state that carries the
preprocessor's photo dict and the step fails (its terminal state has `error`
set), `extracted_data` in the terminal state (after the `handle_error` sink)
is null — the structurally found photo URL is overwritten and lost. -/
theorem extract_failure_drops_photo (o : LlmOutcome) (elapsed : ℚ) (s : GraphState)
    (u : String)
    (hpre : s.extracted_data = some (.photoDict u))
    (h0 : truthy s.error = false)
    (herr : (extract_data o elapsed s).error.isSome = true) :
    (handle_error (extract_data o elapsed s)).extracted_data = none := by
  unfold handle_error
  cases o with
  | apiError name msg => simp [extract_data, h0]
  | unexpectedExc msg => simp [extract_data, h0]
  | reply it ot parse =>
    cases parse with
    | none => simp [extract_data, h0]
    | some pj =>
      rcases hu : unwrapTarget pj with k | fields
      · cases k <;> simp [extract_data, h0, hu]
      · rcases hpj : profileFromJson (normalizeDegrees
          (dictSet (dictSet fields "source_url" (.jstr s.url)) "photo_url" (.jstr u)))
          with _ | p2
        · simp [extract_data, h0, hu, hpre, hpj]
        · exfalso
          simp [extract_data, h0, hu, hpre, hpj, pyOrStr] at herr

/-- C9 witness: a state carrying the photo dict, an API failure from the
LLM — the terminal state has an error and no extracted data. -/
theorem extract_failure_drops_photo_witness :
    (extract_data (.apiError "GoogleAPIError" "quota") 4 wPhotoState).error.isSome = true ∧
    (handle_error (extract_data (.apiError "GoogleAPIError" "quota") 4 wPhotoState)).extracted_data = none := by
  constructor
  · decide
  · exact extract_failure_drops_photo (.apiError "GoogleAPIError" "quota") 4 wPhotoState
      "/img/a.jpg" rfl (by decide) (by decide)

/-! ## Claim C6 — judge-output resilience -/

theorem jcontains_jobj (n : String) (fs : List (String × JValue)) :
    jcontains n (.jobj fs) = .ok ((jlookup fs n).isSome) :=
  rfl

theorem jget_jobj (fs : List (String × JValue)) (k : String) (v : JValue)
    (h : jlookup fs k = some v) : jget (.jobj fs) k = .ok v := by
  simp [jget, h]

theorem fieldStatusFlat_eval (fs : List (String × JValue)) (f : PField) :
    fieldStatusFlat (.jobj fs) f = .ok (jlookup fs f.statusKey) := by
  unfold fieldStatusFlat
  cases h : jlookup fs f.statusKey with
  | none =>
    simp [jcontains_jobj, h, Bind.bind, Except.bind, Pure.pure, Except.pure]
  | some sv =>
    simp [jcontains_jobj, jget_jobj fs f.statusKey sv h, h, Bind.bind,
      Except.bind, Pure.pure, Except.pure, Functor.map, Except.map]

theorem jcontains_eq_ok (n : String) (bv : JValue) (h : memSafe bv = true) :
    jcontains n bv = .ok (jcontainsB n bv) := by
  cases bv with
  | jobj fs => rfl
  | jarr xs => rfl
  | jstr s => rfl
  | jnull => simp [memSafe] at h
  | jbool b => simp [memSafe] at h
  | jint v => simp [memSafe] at h

theorem parse_getD (v : Option JValue)
    (h : ∀ sv, v = some sv → validStatus sv = true) :
    parseStatus (statusOrDefault v) =
      some ((parseStatus (statusOrDefault v)).getD .notApplicable) := by
  cases v with
  | none => simp [statusOrDefault, parseStatus]
  | some sv =>
    obtain ⟨st, hst⟩ := Option.isSome_iff_exists.mp (h sv rfl)
    simp [statusOrDefault, hst]

theorem flatOk_cond (fs : List (String × JValue)) (f : PField)
    (h : flatOk fs f = true) :
    ∀ sv, jlookup fs f.statusKey = some sv → validStatus sv = true := by
  intro sv hsv
  unfold flatOk at h
  rw [hsv] at h
  simpa using h

theorem fieldStatus_ok (fs : List (String × JValue)) (f : PField)
    (h : fieldOk fs f = true) :
    fieldStatus (.jobj fs) f = .ok (fieldStatusSpec fs f) ∧
    parseStatus (statusOrDefault (fieldStatusSpec fs f)) = some (specStatus fs f) := by
  unfold fieldOk at h
  cases hb : jlookup fs f.fieldName with
  | none =>
    rw [hb, Option.elim_none] at h
    constructor
    · simp [fieldStatus, jcontains_jobj, hb, fieldStatusFlat_eval, fieldStatusSpec,
        Bind.bind, Except.bind, Pure.pure, Except.pure]
    · refine parse_getD _ ?_
      intro sv hsv
      simp only [fieldStatusSpec, hb, Option.elim_none] at hsv
      exact flatOk_cond fs f h sv hsv
  | some bv =>
    rw [hb, Option.elim_some] at h
    rw [Bool.and_eq_true] at h
    obtain ⟨hsafe, hrest⟩ := h
    by_cases hc : jcontainsB "status" bv = true
    · rw [if_pos hc] at hrest
      cases hbs : bareStatus bv with
      | none => rw [hbs, Option.elim_none] at hrest; exact absurd hrest (by simp)
      | some sv =>
        rw [hbs, Option.elim_some] at hrest
        cases bv with
        | jobj bfs =>
          have hsv : jlookup bfs "status" = some sv := hbs
          constructor
          · simp [fieldStatus, jcontains_jobj, hb, hsv,
              jget_jobj fs f.fieldName _ hb, jget_jobj bfs "status" sv hsv,
              fieldStatusSpec, hc, bareStatus, Bind.bind, Except.bind,
              Pure.pure, Except.pure, Functor.map, Except.map]
          · refine parse_getD _ ?_
            intro sv2 hsv2
            simp only [fieldStatusSpec, hb, Option.elim_some, if_pos hc,
              bareStatus, hsv, Option.some_inj] at hsv2
            rw [← hsv2]
            exact hrest
        | jnull => simp [bareStatus] at hbs
        | jbool b => simp [bareStatus] at hbs
        | jint v => simp [bareStatus] at hbs
        | jstr s => simp [bareStatus] at hbs
        | jarr xs => simp [bareStatus] at hbs
    · rw [if_neg hc] at hrest
      rw [Bool.not_eq_true] at hc
      constructor
      · simp [fieldStatus, jcontains_jobj, hb, jget_jobj fs f.fieldName _ hb,
          jcontains_eq_ok _ _ hsafe, hc, fieldStatusFlat_eval, fieldStatusSpec,
          Bind.bind, Except.bind, Pure.pure, Except.pure]
      · refine parse_getD _ ?_
        intro sv hsv
        simp only [fieldStatusSpec, hb, Option.elim_some, hc, Bool.false_eq_true,
          if_false] at hsv
        exact flatOk_cond fs f hrest sv hsv

theorem mapJudge_ok (fs : List (String × JValue)) (h : judgeOk fs = true) :
    mapJudge (.jobj fs) = .ok (mkVerdict fs) := by
  unfold judgeOk at h
  rw [Bool.and_eq_true] at h
  obtain ⟨hcomment, hall⟩ := h
  have hfields : ∀ f ∈ pfields, fieldOk fs f = true := by
    simpa [List.all_eq_true] using hall
  have h0 := fieldStatus_ok fs .photo_url (hfields _ (by simp [pfields]))
  have h1 := fieldStatus_ok fs .first_name (hfields _ (by simp [pfields]))
  have h2 := fieldStatus_ok fs .middle_name (hfields _ (by simp [pfields]))
  have h3 := fieldStatus_ok fs .last_name (hfields _ (by simp [pfields]))
  have h4 := fieldStatus_ok fs .title (hfields _ (by simp [pfields]))
  have h5 := fieldStatus_ok fs .office (hfields _ (by simp [pfields]))
  have h6 := fieldStatus_ok fs .phone (hfields _ (by simp [pfields]))
  have h7 := fieldStatus_ok fs .email (hfields _ (by simp [pfields]))
  have h8 := fieldStatus_ok fs .college_unit (hfields _ (by simp [pfields]))
  have h9 := fieldStatus_ok fs .department_division (hfields _ (by simp [pfields]))
  have h10 := fieldStatus_ok fs .degrees (hfields _ (by simp [pfields]))
  have h11 := fieldStatus_ok fs .research_focus_areas (hfields _ (by simp [pfields]))
  unfold commentOk at hcomment
  unfold mapJudge
  cases hcm : jlookup fs "overall_comment" with
  | none =>
    simp [jcontains, hcm, h0.1, h1.1, h2.1, h3.1, h4.1, h5.1, h6.1, h7.1, h8.1,
      h9.1, h10.1, h11.1, h0.2, h1.2, h2.2, h3.2, h4.2, h5.2, h6.2, h7.2, h8.2,
      h9.2, h10.2, h11.2, defaultComment, parseComment, mkVerdict, specComment,
      Bind.bind, Except.bind, Pure.pure, Except.pure]
  | some cv =>
    rw [hcm, Option.elim_some] at hcomment
    obtain ⟨c, hc⟩ := Option.isSome_iff_exists.mp hcomment
    have hpc : parseComment cv = some (specComment fs) := by
      simp [specComment, hcm, hc]
    simp [jcontains, jget, hcm, h0.1, h1.1, h2.1, h3.1, h4.1, h5.1, h6.1, h7.1,
      h8.1, h9.1, h10.1, h11.1, h0.2, h1.2, h2.2, h3.2, h4.2, h5.2, h6.2, h7.2,
      h8.2, h9.2, h10.2, h11.2, hpc, mkVerdict, Bind.bind, Except.bind,
      Pure.pure, Except.pure]

/-- C6 counterexample: the judge reply `{"phone": null}` is a parseable JSON
object, yet the Validator raises (`"status" in None` is a `TypeError` caught
only by the blanket handler): the step fails with `error` set and no
`ValidationVerdict` is produced. -/
theorem judge_response_counterexample :
    (validate_data (.reply 1 2 (.parsed cexJudgeResp)) 3 cexJudgeState).validation_result = none ∧
    (validate_data (.reply 1 2 (.parsed cexJudgeResp)) 3 cexJudgeState).error =
      some "An unexpected error occurred during validation" := by
  exact ⟨rfl, rfl⟩

/-- C6 (amended): for every judge response that parses to a JSON object in
which each value stored under a bare field name is membership-probe-safe
(an object, array or string; nested `status` values only under objects),
every status value reachable through a known key is one of the four status
strings, and any `overall_comment` is a string or null — the Validator does
not raise: it produces a `ValidationVerdict` with `error` still null, and
every field whose status the response does not determine defaults to
`Not Applicable`. -/
theorem judge_key_resilience (fs : List (String × JValue)) (it ot : Nat)
    (elapsed : ℚ) (s : GraphState) (p : ProfileData)
    (h0 : truthy s.error = false) (h1 : truthy s.preprocessed_content = true)
    (h2 : s.extracted_data = some (.profile p))
    (hok : judgeOk fs = true) :
    (validate_data (.reply it ot (.parsed (.jobj fs))) elapsed s).validation_result =
      some (mkVerdict fs) ∧
    (validate_data (.reply it ot (.parsed (.jobj fs))) elapsed s).error = none ∧
    (∀ f : PField, statusAbsent fs f = true →
       verdictStatus (mkVerdict fs) f = .notApplicable) := by
  have hm := mapJudge_ok fs hok
  refine ⟨?_, ?_, ?_⟩
  · simp [validate_data, h0, h1, h2, hm]
  · simp [validate_data, h0, h1, h2, hm, pyOrStr]
  · intro f habs
    have hnone : fieldStatusSpec fs f = none := by
      simpa [statusAbsent, Option.isNone_iff_eq_none] using habs
    cases f <;>
      simp [mkVerdict, verdictStatus, specStatus, hnone, statusOrDefault, parseStatus]

/-- C6 witness: the resilience theorem applied at a judge object carrying a
single flat status key — a verdict is produced and the `phone` field, absent
from the response, defaults to `Not Applicable`. -/
theorem judge_key_resilience_witness :
    (validate_data (.reply 1 2 (.parsed (.jobj wJudgeResp))) 3 cexJudgeState).validation_result =
      some (mkVerdict wJudgeResp) ∧
    (validate_data (.reply 1 2 (.parsed (.jobj wJudgeResp))) 3 cexJudgeState).error = none ∧
    verdictStatus (mkVerdict wJudgeResp) .phone = .notApplicable := by
  have h := judge_key_resilience wJudgeResp 1 2 3 cexJudgeState { source_url := "u" }
    (by decide) (by decide) rfl (by decide)
  exact ⟨h.1, h.2.1, h.2.2 .phone (by decide)⟩

end ProfileExtractor
